import Mathlib

/-!
Verification of the JMeter-report pipeline (`jmter_report.py`).

The embedding models the core pipeline of `JMeterReportGenerator`:
`read_csv` (schema check and field coercion), `calculate_statistics`,
`generate_throughput_graph` and `generate_error_distribution`.

Modelling conventions:
* A pandas cell after `pd.read_csv` is a `Cell`: an integer, a float
  (modelled as a rational), a string, a boolean, or NaN.
* A float NaN produced by `pd.to_numeric(..., errors=\x27coerce\x27)` is
  modelled as `Option.none`; likewise a NaT timestamp and the NaN results
  of pandas reductions over all-NaN columns (`mean`, `median`, `min`,
  `max`, `quantile` are skipna and return NaN on an all-NaN column,
  and Python's `round(nan, 2)` returns nan without raising, so
  `safe_round` maps `none` to `none`).
* Machine floats are modelled as exact rationals.
-/

namespace JmterReport

/-- A single cell of the DataFrame produced by `pd.read_csv`. -/
inductive Cell where
  | int (n : ℤ)
  | float (q : ℚ)
  | str (s : String)
  | boolean (b : Bool)
  | nan
deriving DecidableEq

/-- A raw row: a field-name-to-cell map, as read from the CSV. -/
abbrev RawRow := List (String × Cell)

/-- Cell of column `c` in row `r`; a cell absent from the row is NaN
(pandas fills short rows with NaN). -/
def getCol (r : RawRow) (c : String) : Cell :=
  match r.lookup c with
  | some v => v
  | none => Cell.nan

/-- Numeric value of a digit list, most significant first. -/
def natOfDigits (cs : List Char) : ℕ :=
  cs.foldl (fun n c => 10 * n + (c.toNat - 48)) 0

def allDigits (cs : List Char) : Bool :=
  cs.all (fun c => c.isDigit)

/-- Unsigned decimal literal: digits with an optional fractional part
(`1500`, `1.5`, `.5`, `1.`); anything else is not numeric. -/
def parseUnsignedDecimal (cs : List Char) : Option ℚ :=
  let ip := cs.takeWhile (fun c => c ≠ '.')
  match cs.dropWhile (fun c => c ≠ '.') with
  | [] =>
      if allDigits ip && !ip.isEmpty then some (natOfDigits ip : ℚ) else none
  | _ :: fp =>
      if allDigits ip && allDigits fp && !(ip.isEmpty && fp.isEmpty) then
        some ((natOfDigits ip : ℚ) + (natOfDigits fp : ℚ) / (10 : ℚ) ^ fp.length)
      else none

/-- Numeric parse of a string, with an optional sign, as accepted by
`pd.to_numeric` for decimal forms. -/
def parseDecimal (s : String) : Option ℚ :=
  match s.toList with
  | '-' :: cs => (parseUnsignedDecimal cs).map (fun q => -q)
  | '+' :: cs => parseUnsignedDecimal cs
  | cs => parseUnsignedDecimal cs

/-- `pd.to_numeric(cell, errors=\x27coerce\x27)`: numeric cells pass through,
numeric strings are parsed, everything else coerces to NaN (`none`). -/
def toNumericCell : Cell → Option ℚ
  | .int n => some (n : ℚ)
  | .float q => some q
  | .str s => parseDecimal s
  | .boolean b => some (if b then 1 else 0)
  | .nan => none

/-- `pd.to_datetime(cell, unit=\x27ms\x27)`: numeric cells (and numeric strings)
become an instant (epoch milliseconds), a NaN cell becomes NaT
(`some none`), and any other cell raises (`none`). -/
def toTimestampCell : Cell → Option (Option ℚ)
  | .int n => some (some (n : ℚ))
  | .float q => some (some q)
  | .str s => (parseDecimal s).map some
  | .boolean _ => none
  | .nan => some none

/-- `Series.astype(bool)` on a cell: Python truthiness. A non-empty
string (including "False") is `true`; `bool(nan)` is `true`. -/
def astypeBool : Cell → Bool
  | .int n => n != 0
  | .float q => q != 0
  | .str s => s != ""
  | .boolean b => b
  | .nan => true

/-- A coerced row, after `read_csv`'s column conversions:
`timeStamp` is an instant in epoch milliseconds or NaT (`none`),
`elapsed` is in seconds or NaN (`none`), `success` is a boolean and
`responseCode` is passed through unchanged. -/
structure Sample where
  timeStamp : Option ℚ
  elapsed : Option ℚ
  success : Bool
  responseCode : Cell
deriving DecidableEq

abbrev Dataset := List Sample

/-- Row coercion: `none` when the timestamp conversion raises (which in
the source aborts the whole `read_csv`). `elapsed` is converted with
`errors=\x27coerce\x27` and divided by 1000, `success` with `astype(bool)`. -/
def coerceRow (r : RawRow) : Option Sample :=
  (toTimestampCell (getCol r "timeStamp")).map fun ts =>
    { timeStamp := ts
      elapsed := (toNumericCell (getCol r "elapsed")).map (fun v => v / 1000)
      success := astypeBool (getCol r "success")
      responseCode := getCol r "responseCode" }

/-- Coerce all rows; `none` as soon as one timestamp conversion raises
(`pd.to_datetime` is applied to the whole column and a single bad value
makes `read_csv` return `False`). -/
def coerceRows : List RawRow → Option (List Sample)
  | [] => some []
  | r :: rs =>
      match coerceRow r, coerceRows rs with
      | some s, some d => some (s :: d)
      | _, _ => none

inductive ReadError where
  | schemaViolation (missing : List String)
  | timestampError
deriving DecidableEq

def requiredColumns : List String :=
  ["timeStamp", "elapsed", "success", "responseCode"]

deriving instance DecidableEq for Except

/-- `read_csv`: verify the required columns against the declared columns
(before any row is touched), then coerce the columns. -/
def read_csv (cols : List String) (rows : List RawRow) : Except ReadError Dataset :=
  let missing := requiredColumns.filter (fun c => !(cols.contains c))
  if missing.isEmpty then
    match coerceRows rows with
    | some d => Except.ok d
    | none => Except.error ReadError.timestampError
  else Except.error (ReadError.schemaViolation missing)

/-- The valid (non-NaN) elapsed values, in row order: the values the
skipna reductions of `calculate_statistics` operate on. -/
def validElapsed (d : Dataset) : List ℚ :=
  d.filterMap Sample.elapsed

/-- Round to the nearest integer, ties to even: the rounding of Python's
built-in `round`. -/
def roundHalfEven (x : ℚ) : ℤ :=
  let f := Int.floor x
  let r := x - (f : ℚ)
  if r < 1 / 2 then f
  else if 1 / 2 < r then f + 1
  else if f % 2 = 0 then f else f + 1

/-- Python's `round(x, 2)`. -/
def round2 (x : ℚ) : ℚ :=
  (roundHalfEven (x * 100) : ℚ) / 100

/-- `safe_round` from `calculate_statistics`: `round(float(v), 2)` inside
`try/except` returning 0.0. Neither `float` nor `round` raises on nan, so
nan passes through as nan (`none`). -/
def safe_round : Option ℚ → Option ℚ
  | none => none
  | some x => some (round2 x)

/-- `Series.mean()` (skipna): NaN on an empty value list. -/
def seriesMean (l : List ℚ) : Option ℚ :=
  if l.isEmpty then none else some (l.sum / (l.length : ℚ))

/-- `Series.min()` (skipna): NaN on an empty value list. -/
def seriesMin (l : List ℚ) : Option ℚ := l.min?

/-- `Series.max()` (skipna): NaN on an empty value list. -/
def seriesMax (l : List ℚ) : Option ℚ := l.max?

/-- Linear-interpolation quantile over an already sorted list:
interpolate at rank `q * (n - 1)` (pandas `Series.quantile`, default
`interpolation=\x27linear\x27`; `median()` is the `q = 0.5` case). -/
def quantileSorted (xs : List ℚ) (q : ℚ) : ℚ :=
  let h := q * ((xs.length : ℚ) - 1)
  let i := (Int.floor h).toNat
  let a := xs.getD i 0
  let b := xs.getD (i + 1) a
  a + (h - (i : ℚ)) * (b - a)

/-- `Series.quantile(q)` over the valid elapsed values (skipna): sort,
then interpolate; NaN on an empty value list. -/
def seriesQuantile (l : List ℚ) (q : ℚ) : Option ℚ :=
  if l.isEmpty then none
  else some (quantileSorted (List.insertionSort (fun a b => a ≤ b) l) q)

/-- `Series.mean()` of the boolean success column times 100: the success
fraction over all rows (the column has no NaN after `astype(bool)`). -/
def successRateRaw (d : Dataset) : Option ℚ :=
  if d.isEmpty then none
  else some (((d.countP (fun s => s.success) : ℚ) / (d.length : ℚ)) * 100)

/-- The statistics dictionary of `calculate_statistics` (success path). -/
structure StatBundle where
  totalRequests : ℕ
  averageResponseTime : Option ℚ
  medianResponseTime : Option ℚ
  minResponseTime : Option ℚ
  maxResponseTime : Option ℚ
  successRate : Option ℚ
  p90 : Option ℚ
  p95 : Option ℚ
  p99 : Option ℚ
deriving DecidableEq

/-- `calculate_statistics`. -/
def calculate_statistics (d : Dataset) : StatBundle :=
  { totalRequests := d.length
    averageResponseTime := safe_round (seriesMean (validElapsed d))
    medianResponseTime := safe_round (seriesQuantile (validElapsed d) (1 / 2))
    minResponseTime := safe_round (seriesMin (validElapsed d))
    maxResponseTime := safe_round (seriesMax (validElapsed d))
    successRate := safe_round (successRateRaw d)
    p90 := safe_round (seriesQuantile (validElapsed d) (90 / 100))
    p95 := safe_round (seriesQuantile (validElapsed d) (95 / 100))
    p99 := safe_round (seriesQuantile (validElapsed d) (99 / 100)) }

/-- An exception escaping a pandas call. -/
inductive PandasError where
  | attributeError (msg : String)
deriving DecidableEq

/-- `pd.Timestamp.floor(self.df[\x27timeStamp\x27], \x271S\x27)`: the instance
method `Timestamp.floor` called unbound with a whole Series as `self`.
`Timestamp.floor` delegates to `self._round(...)` and `Series` has no
`_round` attribute, so the call raises AttributeError on every
invocation, before any bucketing happens. -/
def timestampFloorSeries (_ts : List ℚ) : Except PandasError (List ℤ) :=
  Except.error (PandasError.attributeError "Series object has no attribute _round")

/-- `generate_throughput_graph`:
`df.groupby(pd.Timestamp.floor(df[\x27timeStamp\x27], \x271S\x27)).size()`.
The floor call raises (see `timestampFloorSeries`), so the groupby/size
aggregation over its keys (groups sorted ascending, one count per
observed key) is never reached and the stage yields no series. -/
def generate_throughput_graph (d : Dataset) : Except PandasError (List (ℤ × ℕ)) :=
  (timestampFloorSeries (d.filterMap Sample.timeStamp)).map fun ks =>
    (List.insertionSort (fun a b => a ≤ b) ks.dedup).map (fun k => (k, ks.count k))

/-- The response-code distribution of `generate_error_distribution`:
`df[\x27responseCode\x27].value_counts()`, counts per distinct label sorted
by descending count (consumed as an unordered mapping). `value_counts`
defaults to dropna, so NaN labels are excluded. -/
def generate_error_distribution (d : Dataset) : List (Cell × ℕ) :=
  let vs := (d.map Sample.responseCode).filter (fun c => !(c == Cell.nan))
  List.insertionSort (fun a b => b.2 ≤ a.2) (vs.dedup.map (fun c => (c, vs.count c)))

/-- The document content assembled by `generate_html_report`. -/
structure Report where
  stats : StatBundle
  throughput : List (ℤ × ℕ)
  errorDist : List (Cell × ℕ)
deriving DecidableEq

/-- `generate_html_report`: builds the graphs first — the throughput
graph raises before `calculate_statistics` is ever called — and
re-raises out of its try block, so no document is written. -/
def generate_html_report (d : Dataset) : Except PandasError Report :=
  (generate_throughput_graph d).bind fun thr =>
    Except.ok { stats := calculate_statistics d
                throughput := thr
                errorDist := generate_error_distribution d }

/-- `main`: `read_csv` then report generation; when `read_csv` fails,
or report generation raises, no output document is produced. -/
def runPipeline (cols : List String) (rows : List RawRow) : Option Report :=
  match read_csv cols rows with
  | Except.error _ => none
  | Except.ok d =>
      match generate_html_report d with
      | Except.error _ => none
      | Except.ok rep => some rep

/-- Concrete two-row input used to exercise the pipeline: one fully
valid row, one row whose elapsed value is not numeric. -/
def sampleRows : List RawRow :=
  [[("timeStamp", Cell.int 0), ("elapsed", Cell.int 100),
    ("success", Cell.boolean true), ("responseCode", Cell.int 200)],
   [("timeStamp", Cell.int 500), ("elapsed", Cell.str "x"),
    ("success", Cell.boolean false), ("responseCode", Cell.int 500)]]

/-- The dataset `read_csv` produces from `sampleRows`. -/
def sampleDataset : Dataset :=
  [{ timeStamp := some ((0 : ℤ) : ℚ), elapsed := some (((100 : ℤ) : ℚ) / 1000),
     success := true, responseCode := Cell.int 200 },
   { timeStamp := some ((500 : ℤ) : ℚ), elapsed := none, success := false,
     responseCode := Cell.int 500 }]

/-- A one-row input whose only elapsed value is non-numeric (so the
dataset has zero valid elapsed values). -/
def allInvalidRows : List RawRow :=
  [[("timeStamp", Cell.int 0), ("elapsed", Cell.str "abc"),
    ("success", Cell.boolean true), ("responseCode", Cell.int 200)]]

/-- The dataset `read_csv` produces from `allInvalidRows`. -/
def allInvalidDataset : Dataset :=
  [{ timeStamp := some ((0 : ℤ) : ℚ), elapsed := none, success := true,
     responseCode := Cell.int 200 }]

/-- A three-sample dataset with three distinct valid elapsed values. -/
def percentileDataset : Dataset :=
  [{ timeStamp := some 0, elapsed := some 1, success := true,
     responseCode := Cell.int 200 },
   { timeStamp := some 400, elapsed := some 2, success := true,
     responseCode := Cell.int 200 },
   { timeStamp := some 800, elapsed := some 3, success := false,
     responseCode := Cell.int 500 }]

/-- `calculate_statistics` as a stage on the pipeline state (the held
DataFrame): it only reads `self.df`, never assigns to it. -/
def calcStatsStep (d : Dataset) : StatBundle × Dataset :=
  (calculate_statistics d, d)

/-- `generate_throughput_graph` as a stage on the pipeline state. -/
def throughputStep (d : Dataset) : Except PandasError (List (ℤ × ℕ)) × Dataset :=
  (generate_throughput_graph d, d)

/-- `generate_error_distribution` as a stage on the pipeline state. -/
def errorDistStep (d : Dataset) : List (Cell × ℕ) × Dataset :=
  (generate_error_distribution d, d)

end JmterReport

namespace JmterReport

/-! ## Helper lemmas -/

theorem read_csv_ok_coerce {cols : List String} {rows : List RawRow} {d : Dataset}
    (h : read_csv cols rows = Except.ok d) : coerceRows rows = some d := by
  simp only [read_csv] at h
  split at h
  · split at h
    · rename_i d2 heq
      injection h with h2
      rw [h2] at heq
      exact heq
    · exact absurd h (by simp)
  · exact absurd h (by simp)

theorem coerceRows_forall₂ {rows : List RawRow} {d : List Sample}
    (h : coerceRows rows = some d) :
    List.Forall₂ (fun r s => coerceRow r = some s) rows d := by
  induction rows generalizing d with
  | nil =>
      simp only [coerceRows, Option.some.injEq] at h
      subst h
      exact List.Forall₂.nil
  | cons r rs ih =>
      simp only [coerceRows] at h
      cases hr : coerceRow r with
      | none => rw [hr] at h; simp at h
      | some s =>
          rw [hr] at h
          cases hrs : coerceRows rs with
          | none => rw [hrs] at h; simp at h
          | some ds =>
              rw [hrs] at h
              simp only [Option.some.injEq] at h
              subst h
              exact List.Forall₂.cons hr (ih hrs)

/-! ## C1: total-request count conservation -/

/-- C1: for every input of N well-formed rows (rows that `read_csv`
accepts), the `Total Requests` entry of the statistics bundle equals N,
however many rows have an elapsed value that failed coercion. -/
theorem c1_total_requests_conservation (cols : List String) (rows : List RawRow)
    (d : Dataset) (h : read_csv cols rows = Except.ok d) :
    (calculate_statistics d).totalRequests = rows.length := by
  have h2 := (coerceRows_forall₂ (read_csv_ok_coerce h)).length_eq
  simpa [calculate_statistics] using h2.symm

/-- Witness for C1 on a concrete two-row input whose second row has a
non-numeric elapsed value. -/
theorem c1_total_requests_conservation_witness :
    (calculate_statistics sampleDataset).totalRequests = sampleRows.length :=
  c1_total_requests_conservation
    ["timeStamp", "elapsed", "success", "responseCode"]
    sampleRows sampleDataset rfl

/-! ## C6: schema gate -/

/-- C6: an input whose declared columns omit any required column fails
with a `SchemaViolation` carrying the list of all missing required
columns, for arbitrary rows (the check precedes all row coercion), and
the pipeline produces no output document. -/
theorem c6_schema_violation_gate (cols : List String) (rows : List RawRow)
    (c : String) (hc : c ∈ requiredColumns) (hnc : cols.contains c = false) :
    read_csv cols rows =
      Except.error (ReadError.schemaViolation
        (requiredColumns.filter (fun x => !(cols.contains x)))) ∧
    runPipeline cols rows = none := by
  have hmem : c ∈ requiredColumns.filter (fun x => !(cols.contains x)) := by
    rw [List.mem_filter]
    exact ⟨hc, by rw [hnc]; rfl⟩
  have hne : ¬((requiredColumns.filter (fun x => !(cols.contains x))).isEmpty = true) := by
    intro he
    rw [List.isEmpty_iff] at he
    rw [he] at hmem
    exact List.not_mem_nil c hmem
  have h1 : read_csv cols rows =
      Except.error (ReadError.schemaViolation
        (requiredColumns.filter (fun x => !(cols.contains x)))) := by
    simp only [read_csv]
    rw [if_neg hne]
  refine ⟨h1, ?_⟩
  rw [runPipeline, h1]

/-- Witness for C6: an input missing exactly the `success` column. -/
theorem c6_schema_violation_gate_witness :
    (requiredColumns.filter
        (fun x => !((["timeStamp", "elapsed", "responseCode"] : List String).contains x)))
      = ["success"] ∧
    read_csv ["timeStamp", "elapsed", "responseCode"] sampleRows =
      Except.error (ReadError.schemaViolation ["success"]) ∧
    runPipeline ["timeStamp", "elapsed", "responseCode"] sampleRows = none := by
  have h := c6_schema_violation_gate ["timeStamp", "elapsed", "responseCode"]
    sampleRows "success" (by decide) (by decide)
  refine ⟨by decide, ?_, h.2⟩
  rw [h.1]
  decide

/-! ## C7: a single non-numeric timestamp aborts the whole run -/

/-- C7 (divergence witness): on an input whose second row has the
non-numeric timestamp "abc" (and a perfectly valid elapsed value),
`read_csv` fails outright with a timestamp error — the valid first row
is not processed either — and no output document is produced, instead
of the row being excluded from throughput only. -/
theorem c7_bad_timestamp_aborts_run :
    read_csv ["timeStamp", "elapsed", "success", "responseCode"]
        [[("timeStamp", Cell.int 0), ("elapsed", Cell.int 100),
          ("success", Cell.boolean true), ("responseCode", Cell.int 200)],
         [("timeStamp", Cell.str "abc"), ("elapsed", Cell.int 100),
          ("success", Cell.boolean true), ("responseCode", Cell.int 200)]]
      = Except.error ReadError.timestampError ∧
    runPipeline ["timeStamp", "elapsed", "success", "responseCode"]
        [[("timeStamp", Cell.int 0), ("elapsed", Cell.int 100),
          ("success", Cell.boolean true), ("responseCode", Cell.int 200)],
         [("timeStamp", Cell.str "abc"), ("elapsed", Cell.int 100),
          ("success", Cell.boolean true), ("responseCode", Cell.int 200)]]
      = none := by decide

/-! ## C9: success coercion is naive truthiness -/

/-- C9 (divergence witness): `astype(bool)` coerces the strings
"False", "false" and "0" to `true` — Python truthiness of a non-empty
string — not to `false` as an explicit rule table would. -/
theorem c9_success_truthy_cast :
    astypeBool (Cell.str "False") = true ∧
    astypeBool (Cell.str "false") = true ∧
    astypeBool (Cell.str "0") = true := by decide

/-! ## C10: the throughput stage yields no values to reproduce -/

/-- C10 (divergence witness): `calculate_statistics` and
`generate_error_distribution` do leave the concrete two-sample dataset
unchanged and repeat identically in either order, but the throughput
stage raises on every call and yields no series at all, so identical
throughput-series values under reordering or repetition are not a
property the program has. -/
theorem c10_throughput_stage_yields_no_values :
    (calcStatsStep sampleDataset).2 = sampleDataset ∧
    (errorDistStep sampleDataset).2 = sampleDataset ∧
    (throughputStep sampleDataset).2 = sampleDataset ∧
    (calcStatsStep (errorDistStep sampleDataset).2).1
      = (calcStatsStep sampleDataset).1 ∧
    (errorDistStep (calcStatsStep sampleDataset).2).1
      = (errorDistStep sampleDataset).1 ∧
    (calcStatsStep (calcStatsStep sampleDataset).2).1
      = (calcStatsStep sampleDataset).1 ∧
    (errorDistStep (errorDistStep sampleDataset).2).1
      = (errorDistStep sampleDataset).1 ∧
    ¬ ∃ t, (throughputStep sampleDataset).1 = Except.ok t := by
  refine ⟨rfl, rfl, rfl, rfl, rfl, rfl, rfl, ?_⟩
  rintro ⟨t, ht⟩
  simp [throughputStep, generate_throughput_graph, timestampFloorSeries,
    Except.map] at ht

end JmterReport

namespace JmterReport

/-! ## Rounding lemmas -/

theorem floor_le_roundHalfEven (x : ℚ) : Int.floor x ≤ roundHalfEven x := by
  rw [roundHalfEven]
  split_ifs <;> omega

theorem roundHalfEven_le_ceil (x : ℚ) : roundHalfEven x ≤ Int.ceil x := by
  rw [roundHalfEven]
  split_ifs with h1 h2 h3
  · exact Int.floor_le_ceil x
  · have hx : ((Int.floor x : ℚ)) < x := by linarith
    have := Int.lt_ceil.mpr hx
    omega
  · exact Int.floor_le_ceil x
  · have hx : ((Int.floor x : ℚ)) < x := by linarith
    have := Int.lt_ceil.mpr hx
    omega

theorem roundHalfEven_nonneg {x : ℚ} (hx : 0 ≤ x) : 0 ≤ roundHalfEven x :=
  le_trans (Int.floor_nonneg.mpr hx) (floor_le_roundHalfEven x)

theorem roundHalfEven_le_int {x : ℚ} {m : ℤ} (hx : x ≤ (m : ℚ)) :
    roundHalfEven x ≤ m :=
  le_trans (roundHalfEven_le_ceil x) (Int.ceil_le.mpr hx)

theorem round2_nonneg {x : ℚ} (hx : 0 ≤ x) : 0 ≤ round2 x := by
  rw [round2]
  apply div_nonneg _ (by norm_num)
  exact_mod_cast roundHalfEven_nonneg (by positivity)

theorem round2_le_100 {x : ℚ} (hx : x ≤ 100) : round2 x ≤ 100 := by
  rw [round2, div_le_iff₀ (by norm_num : (0 : ℚ) < 100)]
  have h : roundHalfEven (x * 100) ≤ (10000 : ℤ) :=
    roundHalfEven_le_int (by push_cast; linarith)
  calc ((roundHalfEven (x * 100) : ℤ) : ℚ) ≤ ((10000 : ℤ) : ℚ) := by exact_mod_cast h
  _ = 100 * 100 := by norm_num

/-! ## C3: success-rate formula and bounds -/

/-- C3: on a dataset with at least one row, the `Success Rate` entry is
the fraction of successful samples times 100, rounded to two decimals,
and lies between 0 and 100. -/
theorem c3_success_rate_bounds (d : Dataset) (hne : d ≠ []) :
    ∃ r : ℚ, (calculate_statistics d).successRate = some r ∧
      r = round2 (((d.countP (fun s => s.success) : ℚ) / (d.length : ℚ)) * 100) ∧
      0 ≤ r ∧ r ≤ 100 := by
  have hT : d.isEmpty = false := by
    cases d with
    | nil => exact absurd rfl hne
    | cons a l => rfl
  have hlen : 0 < d.length := List.length_pos.mpr hne
  have hfrac0 : (0 : ℚ) ≤ ((d.countP (fun s => s.success) : ℚ) / (d.length : ℚ)) * 100 := by
    positivity
  have hfrac1 : ((d.countP (fun s => s.success) : ℚ) / (d.length : ℚ)) * 100 ≤ 100 := by
    have hc : ((d.countP (fun s => s.success) : ℚ)) ≤ ((d.length : ℚ)) := by
      exact_mod_cast List.countP_le_length _
    have hdiv : ((d.countP (fun s => s.success) : ℚ) / (d.length : ℚ)) ≤ 1 :=
      (div_le_one (by exact_mod_cast hlen)).mpr hc
    linarith
  refine ⟨round2 (((d.countP (fun s => s.success) : ℚ) / (d.length : ℚ)) * 100),
    ?_, rfl, round2_nonneg hfrac0, round2_le_100 hfrac1⟩
  simp [calculate_statistics, safe_round, successRateRaw, hT]

/-- Witness for C3 on the concrete two-row input (one success out of
two samples). -/
theorem c3_success_rate_bounds_witness :
    ∃ r : ℚ, (calculate_statistics sampleDataset).successRate = some r ∧
      r = round2 (((sampleDataset.countP (fun s => s.success) : ℚ) /
        (sampleDataset.length : ℚ)) * 100) ∧
      0 ≤ r ∧ r ≤ 100 :=
  c3_success_rate_bounds sampleDataset (by decide)

end JmterReport

namespace JmterReport

/-! ## C2: elapsed coercion policy -/

/-- C2: (1) in every dataset `read_csv` accepts, the i-th sample's
`elapsed_seconds` is the numeric coercion of the i-th raw row's elapsed
cell divided by 1000 (`none` exactly when the raw value is not numeric);
(2) appending a sample whose elapsed is invalid leaves every
elapsed-based statistic unchanged while `Total Requests` and the
success-rate denominator grow by one; (3) the raw elapsed value 1500
yields `elapsed_seconds = 1.5`. -/
theorem c2_elapsed_coercion_policy :
    (∀ (cols : List String) (rows : List RawRow) (d : Dataset),
        read_csv cols rows = Except.ok d →
        List.Forall₂ (fun (r : RawRow) (s : Sample) =>
          s.elapsed = (toNumericCell (getCol r "elapsed")).map (fun v => v / 1000))
          rows d) ∧
    (∀ (d : Dataset) (s : Sample), s.elapsed = none →
        validElapsed (d ++ [s]) = validElapsed d ∧
        (calculate_statistics (d ++ [s])).averageResponseTime
          = (calculate_statistics d).averageResponseTime ∧
        (calculate_statistics (d ++ [s])).medianResponseTime
          = (calculate_statistics d).medianResponseTime ∧
        (calculate_statistics (d ++ [s])).minResponseTime
          = (calculate_statistics d).minResponseTime ∧
        (calculate_statistics (d ++ [s])).maxResponseTime
          = (calculate_statistics d).maxResponseTime ∧
        (calculate_statistics (d ++ [s])).p90 = (calculate_statistics d).p90 ∧
        (calculate_statistics (d ++ [s])).p95 = (calculate_statistics d).p95 ∧
        (calculate_statistics (d ++ [s])).p99 = (calculate_statistics d).p99 ∧
        (calculate_statistics (d ++ [s])).totalRequests = d.length + 1 ∧
        (calculate_statistics (d ++ [s])).successRate =
          some (round2 ((((d ++ [s]).countP (fun t => t.success) : ℚ) /
            ((d.length : ℚ) + 1)) * 100))) ∧
    ((coerceRow [("timeStamp", Cell.int 0), ("elapsed", Cell.int 1500),
        ("success", Cell.boolean true), ("responseCode", Cell.int 200)]).map
        Sample.elapsed
      = some (some (3 / 2))) := by
  refine ⟨?_, ?_, ?_⟩
  · intro cols rows d h
    refine (coerceRows_forall₂ (read_csv_ok_coerce h)).imp ?_
    intro r s hrs
    rw [coerceRow] at hrs
    rcases Option.map_eq_some'.mp hrs with ⟨ts, _, hs⟩
    rw [← hs]
  · intro d s hs
    have hval : validElapsed (d ++ [s]) = validElapsed d := by
      simp [validElapsed, List.filterMap_append, hs]
    have hemp : (d ++ [s]).isEmpty = false := by
      simp
    refine ⟨hval, ?_, ?_, ?_, ?_, ?_, ?_, ?_, ?_, ?_⟩
    · simp [calculate_statistics, hval]
    · simp [calculate_statistics, hval]
    · simp [calculate_statistics, hval]
    · simp [calculate_statistics, hval]
    · simp [calculate_statistics, hval]
    · simp [calculate_statistics, hval]
    · simp [calculate_statistics, hval]
    · simp [calculate_statistics]
    · simp [calculate_statistics, safe_round, successRateRaw, hemp]
  · have h : (coerceRow [("timeStamp", Cell.int 0), ("elapsed", Cell.int 1500),
        ("success", Cell.boolean true), ("responseCode", Cell.int 200)]).map
        Sample.elapsed = some (some (((1500 : ℤ) : ℚ) / 1000)) := rfl
    rw [h]
    norm_num

/-- Witness for C2: the coercion formula on the concrete two-row input,
and statistics invariance when an elapsed-invalid sample is appended to
a concrete one-sample dataset. -/
theorem c2_elapsed_coercion_policy_witness :
    List.Forall₂ (fun (r : RawRow) (s : Sample) =>
        s.elapsed = (toNumericCell (getCol r "elapsed")).map (fun v => v / 1000))
      sampleRows sampleDataset ∧
    validElapsed
        ([{ timeStamp := some 0, elapsed := some 2, success := true,
            responseCode := Cell.int 200 }] ++
          [{ timeStamp := some 1000, elapsed := none, success := false,
             responseCode := Cell.int 500 }])
      = validElapsed
          [{ timeStamp := some 0, elapsed := some 2, success := true,
             responseCode := Cell.int 200 }] :=
  ⟨c2_elapsed_coercion_policy.1
      ["timeStamp", "elapsed", "success", "responseCode"] sampleRows sampleDataset rfl,
    (c2_elapsed_coercion_policy.2.1
      [{ timeStamp := some 0, elapsed := some 2, success := true,
         responseCode := Cell.int 200 }]
      { timeStamp := some 1000, elapsed := none, success := false,
        responseCode := Cell.int 500 } rfl).1⟩

/-! ## C8: zero valid elapsed values give NaN, not the 0.0 sentinel -/

/-- C8 (divergence witness): on a one-row input whose elapsed value is
non-numeric (zero valid elapsed values), every elapsed-derived metric
of `calculate_statistics` is NaN — `round(float(nan), 2)` returns nan
without raising, so the 0.0 fallback in `safe_round` is never reached —
while `Total Requests` is 1 and `Success Rate` is 100, computed
normally. -/
theorem c8_all_invalid_elapsed_metrics_are_nan :
    read_csv requiredColumns allInvalidRows = Except.ok allInvalidDataset ∧
    validElapsed allInvalidDataset = [] ∧
    (calculate_statistics allInvalidDataset).averageResponseTime = none ∧
    (calculate_statistics allInvalidDataset).medianResponseTime = none ∧
    (calculate_statistics allInvalidDataset).minResponseTime = none ∧
    (calculate_statistics allInvalidDataset).maxResponseTime = none ∧
    (calculate_statistics allInvalidDataset).p90 = none ∧
    (calculate_statistics allInvalidDataset).p95 = none ∧
    (calculate_statistics allInvalidDataset).p99 = none ∧
    (calculate_statistics allInvalidDataset).totalRequests = 1 ∧
    (calculate_statistics allInvalidDataset).successRate = some 100 := by
  refine ⟨rfl, rfl, rfl, rfl, rfl, rfl, rfl, rfl, rfl, rfl, ?_⟩
  simp [calculate_statistics, safe_round, successRateRaw, allInvalidDataset,
    round2, roundHalfEven]
  norm_num

end JmterReport

namespace JmterReport

/-! ## C5: the throughput stage raises instead of emitting a series -/

/-- C5 (divergence witness): the unbound `Timestamp.floor` call raises
AttributeError on every invocation, so even for a fully valid two-row
input the throughput stage yields no `(bucket_start, count)` series at
all — and report generation, which runs it, produces no document —
instead of the sorted, count-conserving bucket series the claim
describes. -/
theorem c5_throughput_stage_raises :
    generate_throughput_graph sampleDataset
      = Except.error (PandasError.attributeError
          "Series object has no attribute _round") ∧
    (¬ ∃ t, generate_throughput_graph sampleDataset = Except.ok t) ∧
    runPipeline requiredColumns sampleRows = none := by
  refine ⟨rfl, ?_, rfl⟩
  rintro ⟨t, ht⟩
  simp [generate_throughput_graph, timestampFloorSeries, Except.map] at ht

end JmterReport

namespace JmterReport

/-! ## Quantile lemmas -/

theorem sorted_getD_le {xs : List ℚ} (hs : xs.Sorted (fun a b => a ≤ b))
    {i j : ℕ} (hij : i ≤ j) (hj : j < xs.length) (u v : ℚ) :
    xs.getD i u ≤ xs.getD j v := by
  have hi : i < xs.length := lt_of_le_of_lt hij hj
  rw [List.getD_eq_get _ _ hi, List.getD_eq_get _ _ hj]
  exact hs.rel_get_of_le (Fin.mk_le_mk.mpr hij)

theorem quantileSorted_le_quantileSorted {xs : List ℚ}
    (hs : xs.Sorted (fun a b => a ≤ b)) (hne : xs ≠ [])
    {q1 q2 : ℚ} (h0 : 0 ≤ q1) (h12 : q1 ≤ q2) (h21 : q2 ≤ 1) :
    quantileSorted xs q1 ≤ quantileSorted xs q2 := by
  have hn : 1 ≤ xs.length := List.length_pos.mpr hne
  have hnq : (1 : ℚ) ≤ (xs.length : ℚ) := by exact_mod_cast hn
  set n := xs.length with hnn
  set h1 := q1 * ((n : ℚ) - 1) with hh1
  set h2 := q2 * ((n : ℚ) - 1) with hh2
  have hd : (0 : ℚ) ≤ (n : ℚ) - 1 := by linarith
  have h01 : 0 ≤ h1 := mul_nonneg h0 hd
  have h1le2 : h1 ≤ h2 := mul_le_mul_of_nonneg_right h12 hd
  have h02 : 0 ≤ h2 := le_trans h01 h1le2
  have h2top : h2 ≤ (n : ℚ) - 1 := by
    calc h2 ≤ 1 * ((n : ℚ) - 1) := mul_le_mul_of_nonneg_right h21 hd
    _ = (n : ℚ) - 1 := one_mul _
  have hf1 : (0 : ℤ) ≤ Int.floor h1 := Int.floor_nonneg.mpr h01
  have hf2 : (0 : ℤ) ≤ Int.floor h2 := Int.floor_nonneg.mpr h02
  set i1 := (Int.floor h1).toNat with hi1
  set i2 := (Int.floor h2).toNat with hi2
  have hc1 : ((i1 : ℕ) : ℚ) = ((Int.floor h1 : ℤ) : ℚ) := by
    rw [hi1]
    exact_mod_cast congrArg (fun z : ℤ => (z : ℚ)) (Int.toNat_of_nonneg hf1)
  have hc2 : ((i2 : ℕ) : ℚ) = ((Int.floor h2 : ℤ) : ℚ) := by
    rw [hi2]
    exact_mod_cast congrArg (fun z : ℤ => (z : ℚ)) (Int.toNat_of_nonneg hf2)
  have hi12 : i1 ≤ i2 := by
    have := Int.floor_le_floor h1le2
    omega
  have hfl2 : Int.floor h2 ≤ (n : ℤ) - 1 := by
    have hcast : ((n : ℚ) - 1) = (((n : ℤ) - 1 : ℤ) : ℚ) := by push_cast; ring
    have := Int.floor_le_floor h2top
    rwa [hcast, Int.floor_intCast] at this
  have hi2top : i2 ≤ n - 1 := by omega
  have hg1lo : ((i1 : ℕ) : ℚ) ≤ h1 := by rw [hc1]; exact Int.floor_le h1
  have hg1hi : h1 < ((i1 : ℕ) : ℚ) + 1 := by
    rw [hc1]
    exact_mod_cast Int.lt_floor_add_one h1
  have hg2lo : ((i2 : ℕ) : ℚ) ≤ h2 := by rw [hc2]; exact Int.floor_le h2
  have e1 : quantileSorted xs q1
      = xs.getD i1 0 + (h1 - ((i1 : ℕ) : ℚ)) *
          (xs.getD (i1 + 1) (xs.getD i1 0) - xs.getD i1 0) := rfl
  have e2 : quantileSorted xs q2
      = xs.getD i2 0 + (h2 - ((i2 : ℕ) : ℚ)) *
          (xs.getD (i2 + 1) (xs.getD i2 0) - xs.getD i2 0) := rfl
  have hab1 : xs.getD i1 0 ≤ xs.getD (i1 + 1) (xs.getD i1 0) := by
    by_cases hlt : i1 + 1 < n
    · exact sorted_getD_le hs (Nat.le_succ i1) hlt 0 _
    · rw [List.getD_eq_default _ _ (by omega : n ≤ i1 + 1)]
  have hv1 : quantileSorted xs q1 ≤ xs.getD (i1 + 1) (xs.getD i1 0) := by
    rw [e1]
    nlinarith [mul_nonneg (by linarith : (0 : ℚ) ≤ 1 - (h1 - ((i1 : ℕ) : ℚ)))
      (by linarith : (0 : ℚ) ≤ xs.getD (i1 + 1) (xs.getD i1 0) - xs.getD i1 0)]
  have hab2 : xs.getD i2 0 ≤ xs.getD (i2 + 1) (xs.getD i2 0) := by
    by_cases hlt : i2 + 1 < n
    · exact sorted_getD_le hs (Nat.le_succ i2) hlt 0 _
    · rw [List.getD_eq_default _ _ (by omega : n ≤ i2 + 1)]
  have hv2 : xs.getD i2 0 ≤ quantileSorted xs q2 := by
    rw [e2]
    nlinarith [mul_nonneg (by linarith : (0 : ℚ) ≤ h2 - ((i2 : ℕ) : ℚ))
      (by linarith : (0 : ℚ) ≤ xs.getD (i2 + 1) (xs.getD i2 0) - xs.getD i2 0)]
  rcases Nat.eq_or_lt_of_le hi12 with heq | hlt
  · rw [e1, e2, ← heq]
    have hgg : h1 - ((i1 : ℕ) : ℚ) ≤ h2 - ((i1 : ℕ) : ℚ) := by linarith
    nlinarith [mul_nonneg (by linarith : (0 : ℚ) ≤ h2 - h1)
      (by linarith : (0 : ℚ) ≤ xs.getD (i1 + 1) (xs.getD i1 0) - xs.getD i1 0)]
  · have hi2n : i2 < n := by omega
    have hmid : xs.getD (i1 + 1) (xs.getD i1 0) ≤ xs.getD i2 0 :=
      sorted_getD_le hs (by omega) hi2n _ 0
    exact le_trans hv1 (le_trans hmid hv2)

theorem roundHalfEven_mono {x y : ℚ} (hxy : x ≤ y) :
    roundHalfEven x ≤ roundHalfEven y := by
  rcases lt_or_le (Int.floor x) (Int.floor y) with hf | hf
  · have h1 := roundHalfEven_le_ceil x
    have h2 := Int.ceil_le_floor_add_one x
    have h3 := floor_le_roundHalfEven y
    omega
  · have heq : Int.floor x = Int.floor y :=
      le_antisymm (Int.floor_le_floor hxy) hf
    have hfx := Int.floor_le x
    simp only [roundHalfEven, ← heq]
    split_ifs <;> first | omega | linarith
  
theorem round2_mono {x y : ℚ} (h : x ≤ y) : round2 x ≤ round2 y := by
  rw [round2, round2]
  have h1 := roundHalfEven_mono (by linarith : x * 100 ≤ y * 100)
  have h2 : ((roundHalfEven (x * 100) : ℤ) : ℚ) ≤ ((roundHalfEven (y * 100) : ℤ) : ℚ) := by
    exact_mod_cast h1
  linarith

end JmterReport

namespace JmterReport

/-! ## C4: interpolated percentiles and their ordering -/

/-- C4: `p90`, `p95`, `p99` are the (rounded) linear-interpolation
percentiles of the sorted valid elapsed values, and on a dataset with at
least three distinct valid elapsed values they satisfy p90 ≤ p95 ≤ p99. -/
theorem c4_percentile_ordering (d : Dataset)
    (h3 : 3 ≤ (validElapsed d).dedup.length) :
    (calculate_statistics d).p90 = safe_round (seriesQuantile (validElapsed d) (90 / 100)) ∧
    (calculate_statistics d).p95 = safe_round (seriesQuantile (validElapsed d) (95 / 100)) ∧
    (calculate_statistics d).p99 = safe_round (seriesQuantile (validElapsed d) (99 / 100)) ∧
    ∃ a b c : ℚ, (calculate_statistics d).p90 = some a ∧
      (calculate_statistics d).p95 = some b ∧
      (calculate_statistics d).p99 = some c ∧ a ≤ b ∧ b ≤ c := by
  have hne : validElapsed d ≠ [] := by
    intro he
    rw [he] at h3
    simp at h3
  have hempf : (validElapsed d).isEmpty = false := by
    cases hv : validElapsed d with
    | nil => exact absurd hv hne
    | cons a t => rfl
  set l := List.insertionSort (fun a b => a ≤ b) (validElapsed d) with hl
  have hsort : l.Sorted (fun a b => a ≤ b) := List.sorted_insertionSort _ _
  have hlne : l ≠ [] := by
    intro he
    apply hne
    have hperm := List.perm_insertionSort (fun a b => a ≤ b) (validElapsed d)
    rw [← hl, he] at hperm
    exact hperm.symm.eq_nil
  have m1 : quantileSorted l (90 / 100) ≤ quantileSorted l (95 / 100) :=
    quantileSorted_le_quantileSorted hsort hlne (by norm_num) (by norm_num) (by norm_num)
  have m2 : quantileSorted l (95 / 100) ≤ quantileSorted l (99 / 100) :=
    quantileSorted_le_quantileSorted hsort hlne (by norm_num) (by norm_num) (by norm_num)
  refine ⟨rfl, rfl, rfl, round2 (quantileSorted l (90 / 100)),
    round2 (quantileSorted l (95 / 100)), round2 (quantileSorted l (99 / 100)),
    ?_, ?_, ?_, round2_mono m1, round2_mono m2⟩
  · simp [calculate_statistics, safe_round, seriesQuantile, hempf, hl]
  · simp [calculate_statistics, safe_round, seriesQuantile, hempf, hl]
  · simp [calculate_statistics, safe_round, seriesQuantile, hempf, hl]

/-- Witness for C4 on a concrete dataset with the three distinct valid
elapsed values 1, 2 and 3. -/
theorem c4_percentile_ordering_witness :
    (calculate_statistics percentileDataset).p90
      = safe_round (seriesQuantile (validElapsed percentileDataset) (90 / 100)) ∧
    (calculate_statistics percentileDataset).p95
      = safe_round (seriesQuantile (validElapsed percentileDataset) (95 / 100)) ∧
    (calculate_statistics percentileDataset).p99
      = safe_round (seriesQuantile (validElapsed percentileDataset) (99 / 100)) ∧
    ∃ a b c : ℚ, (calculate_statistics percentileDataset).p90 = some a ∧
      (calculate_statistics percentileDataset).p95 = some b ∧
      (calculate_statistics percentileDataset).p99 = some c ∧ a ≤ b ∧ b ≤ c :=
  c4_percentile_ordering percentileDataset (by decide)

end JmterReport
